import Mathlib

/-!
Verification of the CANopen SDO transfer engine (node-canopen).

The definitions below are a shallow embedding of the SDO client and server
implemented in the repository (Transfer, Queue, SdoClient, SdoServer).
Node `Buffer` values are modelled as `List Nat` with every stored byte
reduced modulo 256; CAN frames are 8-byte buffers.  Promise resolution is
made explicit through a `Completion` result on every handler.
-/

namespace Canopen

/-! ## Buffer model (Node Buffer semantics on `List Nat`) -/

/-- Buffer.writeUInt8: set byte `i` to `v mod 256`.  A write past the end of
the buffer is a no-op, mirroring that the code never writes out of range on
its fixed 8-byte buffers. -/
def setByte (b : List Nat) (i v : Nat) : List Nat :=
  b.set i (v % 256)

/-- Buffer.readUInt8 / `data[i]`: read byte `i` (0 when out of range). -/
def readU8 (b : List Nat) (i : Nat) : Nat :=
  b.getD i 0

/-- Buffer.writeUInt16LE. -/
def writeU16LE (b : List Nat) (i v : Nat) : List Nat :=
  setByte (setByte b i v) (i + 1) (v >>> 8)

/-- Buffer.writeUInt32LE. -/
def writeU32LE (b : List Nat) (i v : Nat) : List Nat :=
  setByte (setByte (setByte (setByte b i v) (i + 1) (v >>> 8)) (i + 2) (v >>> 16)) (i + 3) (v >>> 24)

/-- Buffer.readUInt16LE. -/
def readU16LE (b : List Nat) (i : Nat) : Nat :=
  readU8 b i + 256 * readU8 b (i + 1)

/-- Buffer.readUInt32LE. -/
def readU32LE (b : List Nat) (i : Nat) : Nat :=
  readU8 b i + 256 * (readU8 b (i + 1) + 256 * (readU8 b (i + 2) + 256 * readU8 b (i + 3)))

/-- src.copy(b, i): copy the bytes of `src` into `b` starting at offset `i`,
clipping at the end of `b` (Node copy semantics; `List.set` past the end is
a no-op). -/
def writeBytes (b : List Nat) (i : Nat) (src : List Nat) : List Nat :=
  match src with
  | [] => b
  | x :: xs => writeBytes (setByte b i x) (i + 1) xs

/-- Buffer.concat([a, b], n): concatenation truncated or zero-filled to
total length `n`. -/
def bufConcat (a b : List Nat) (n : Nat) : List Nat :=
  (a ++ b ++ List.replicate n 0).take n

/-- Buffer.alloc(8): the fresh zero-filled CAN payload. -/
def zero8 : List Nat := List.replicate 8 0

/-! ## SdoCode: the abort code table exactly as assigned in the source -/

namespace SdoCode

/-- Toggle bit not altered. -/
def TOGGLE_BIT : Nat := 0x05030000

/-- SDO protocol timed out. -/
def TIMEOUT : Nat := 0x05040000

/-- Command specifier not valid or unknown. -/
def BAD_COMMAND : Nat := 0x05040001

/-- Out of memory. -/
def OUT_OF_MEMORY : Nat := 0x05040005

/-- Unsupported access to an object. -/
def UNSUPPORTED_ACCESS : Nat := 0x06010000

/-- Attempt to read a write only object. -/
def WRITE_ONLY : Nat := 0x06010001

/-- Attempt to write a read only object. -/
def READ_ONLY : Nat := 0x06010002

/-- Object does not exist. -/
def OBJECT_UNDEFINED : Nat := 0x06020000

/-- Data type does not match: length of service parameter does not match. -/
def BAD_LENGTH : Nat := 0x06070010

/-- Data type does not match: length of service parameter too high. -/
def DATA_LONG : Nat := 0x06070012

/-- Data type does not match: length of service parameter too short.  The
source assigns this constant the value 0x06070012, the same numeral as
DATA_LONG (src/unnamed/part_001 line 73). -/
def DATA_SHORT : Nat := 0x06070012

/-- Sub index does not exist. -/
def BAD_SUB_INDEX : Nat := 0x06090011

/-- Invalid value for download parameter. -/
def BAD_VALUE : Nat := 0x06090030

/-- Value range of parameter written too high. -/
def VALUE_HIGH : Nat := 0x06090031

/-- Value range of parameter written too low. -/
def VALUE_LOW : Nat := 0x06090032

end SdoCode

/-! ## Command specifiers -/

namespace ClientCommand

/-- CCS download segment. -/
def DOWNLOAD_SEGMENT : Nat := 0

/-- CCS download initiate. -/
def DOWNLOAD_INITIATE : Nat := 1

/-- CCS upload initiate. -/
def UPLOAD_INITIATE : Nat := 2

/-- CCS upload segment. -/
def UPLOAD_SEGMENT : Nat := 3

/-- CCS abort. -/
def ABORT : Nat := 4

end ClientCommand

namespace ServerCommand

/-- SCS upload segment. -/
def UPLOAD_SEGMENT : Nat := 0

/-- SCS download segment. -/
def DOWNLOAD_SEGMENT : Nat := 1

/-- SCS upload initiate. -/
def UPLOAD_INITIATE : Nat := 2

/-- SCS download initiate. -/
def DOWNLOAD_INITIATE : Nat := 3

/-- SCS abort. -/
def ABORT : Nat := 4

end ServerCommand

/-! ## Transfer context -/

/-- Per-transfer state, the fields of the `Transfer` class that the
state machine reads and writes (the timer and device handle are not
modelled; `start`/`resolve`/`reject` keep their effect on `active`). -/
structure Transfer where
  index : Nat
  subIndex : Nat
  data : List Nat
  size : Nat
  toggle : Nat
  active : Bool
  cobId : Nat
deriving DecidableEq, Repr

/-- Result of a transfer-completing event: still pending, resolved with an
optional data buffer, or rejected with an abort code. -/
inductive Completion where
  | pending
  | resolved (data : Option (List Nat))
  | rejected (code : Nat)
deriving DecidableEq, Repr

/-- One handler step on the client side: the updated transfer, the frames
sent on the bus, and the completion outcome of the promise. -/
structure ClientStep where
  t : Transfer
  out : List (List Nat)
  res : Completion
deriving DecidableEq, Repr

/-- Transfer.abort: the 8-byte abort frame (command byte 0x80, index and
sub-index echoed, 32-bit little-endian code at bytes 4..7). -/
def Transfer.abortFrame (t : Transfer) (code : Nat) : List Nat :=
  writeU32LE (setByte (writeU16LE (setByte zero8 0 0x80) 1 t.index) 3 t.subIndex) 4 code

/-- Transfer.reject: deactivate and reject the promise with the code. -/
def Transfer.rejectStep (t : Transfer) (code : Nat) : ClientStep :=
  ⟨{ t with active := false }, [], .rejected code⟩

/-- Transfer.abort: send an abort frame to the peer and reject. -/
def Transfer.abortStep (t : Transfer) (code : Nat) : ClientStep :=
  ⟨{ t with active := false }, [t.abortFrame code], .rejected code⟩

/-! ## SdoClient handlers -/

namespace SdoClient

/-- SdoClient upload/download initiate frame prelude: bytes 1..3 carry the
index (little-endian) and sub-index. -/
def headerBytes (index subIndex : Nat) : List Nat :=
  setByte (writeU16LE zero8 1 index) 3 subIndex

/-- The initiate frame built by SdoClient.download: segmented when the
payload exceeds 4 bytes (size at bytes 4..7), expedited otherwise with the
payload inline at bytes 4.. and header bits from `(4-n) << 2 | 0x3`. -/
def downloadInitFrame (index subIndex : Nat) (data : List Nat) : List Nat :=
  let b := headerBytes index subIndex
  if data.length > 4 then
    setByte (writeU32LE b 4 data.length) 0 ((ClientCommand.DOWNLOAD_INITIATE <<< 5) ||| 0x1)
  else
    let header := (ClientCommand.DOWNLOAD_INITIATE <<< 5) ||| ((4 - data.length) <<< 2) ||| 0x3
    writeBytes (setByte b 0 header) 4 data

/-- SdoClient uploadInitiate handler. -/
def uploadInitiate (t : Transfer) (d : List Nat) : ClientStep :=
  if readU8 d 0 &&& 0x02 ≠ 0 then
    let size := if readU8 d 0 &&& 1 ≠ 0 then 4 - ((readU8 d 0 >>> 2) &&& 3) else 4
    ⟨{ t with active := false }, [], .resolved (some ((d.drop 4).take size))⟩
  else
    let sendBuffer := setByte zero8 0 (ClientCommand.UPLOAD_SEGMENT <<< 5)
    let t' := if readU8 d 0 &&& 1 ≠ 0 then { t with size := readU32LE d 4 } else t
    ⟨t', [sendBuffer], .pending⟩

/-- SdoClient uploadSegment handler. -/
def uploadSegment (t : Transfer) (d : List Nat) : ClientStep :=
  if !t.active then ⟨t, [], .pending⟩
  else if (readU8 d 0 &&& 0x10) ≠ (t.toggle <<< 4) then
    t.abortStep SdoCode.TOGGLE_BIT
  else
    let count := 7 - ((readU8 d 0 >>> 1) &&& 0x7)
    let payload := (d.drop 1).take count
    let size := t.data.length + count
    let buffer := bufConcat t.data payload size
    if readU8 d 0 &&& 1 ≠ 0 then
      if t.size ≠ size then
        t.abortStep SdoCode.BAD_LENGTH
      else
        ⟨{ t with active := false }, [], .resolved (some buffer)⟩
    else
      let t' := { t with toggle := t.toggle ^^^ 1, data := buffer }
      let header := (ClientCommand.UPLOAD_SEGMENT <<< 5) ||| (t'.toggle <<< 4)
      ⟨t', [setByte zero8 0 header], .pending⟩

/-- SdoClient downloadInitiate handler (server acknowledged the initiate). -/
def downloadInitiate (t : Transfer) : ClientStep :=
  if t.size ≤ 4 then
    ⟨{ t with active := false }, [], .resolved none⟩
  else
    let sz := min 7 t.data.length
    let header0 := (ClientCommand.DOWNLOAD_SEGMENT <<< 5) ||| ((7 - sz) <<< 1)
    let header := if t.data.length = sz then header0 ||| 1 else header0
    let frame := setByte (writeBytes zero8 1 (t.data.take sz)) 0 header
    ⟨{ t with size := sz }, [frame], .pending⟩

/-- SdoClient downloadSegment handler (server acknowledged a segment). -/
def downloadSegment (t : Transfer) (d : List Nat) : ClientStep :=
  if !t.active then ⟨t, [], .pending⟩
  else if (readU8 d 0 &&& 0x10) ≠ (t.toggle <<< 4) then
    t.abortStep SdoCode.TOGGLE_BIT
  else if t.size = t.data.length then
    ⟨{ t with active := false }, [], .resolved none⟩
  else
    let count := min 7 (t.data.length - t.size)
    let payload := (t.data.drop t.size).take count
    let toggle := t.toggle ^^^ 1
    let newSize := t.size + count
    let header0 := (ClientCommand.DOWNLOAD_SEGMENT <<< 5) ||| (toggle <<< 4) ||| ((7 - count) <<< 1)
    let header := if newSize = t.data.length then header0 ||| 1 else header0
    let frame := setByte (writeBytes zero8 1 payload) 0 header
    ⟨{ t with toggle := toggle, size := newSize }, [frame], .pending⟩

/-- SdoClient onMessage dispatch for a frame addressed to an in-flight
transfer, keyed on the server command specifier in bits 7..5. -/
def onMessage (t : Transfer) (d : List Nat) : ClientStep :=
  if readU8 d 0 >>> 5 = ServerCommand.UPLOAD_SEGMENT then
    uploadSegment t d
  else if readU8 d 0 >>> 5 = ServerCommand.DOWNLOAD_SEGMENT then
    downloadSegment t d
  else if readU8 d 0 >>> 5 = ServerCommand.UPLOAD_INITIATE then
    uploadInitiate t d
  else if readU8 d 0 >>> 5 = ServerCommand.DOWNLOAD_INITIATE then
    downloadInitiate t
  else if readU8 d 0 >>> 5 = ServerCommand.ABORT then
    t.abortStep (readU32LE d 4)
  else
    t.abortStep SdoCode.BAD_COMMAND

end SdoClient

/-! ## Object dictionary model

The eds module is not part of the extracted sources; per spec section 4.7
an Entry exposes `accessType`, `dataType` driven conversion, `size`,
`raw`, optional `highLimit`/`lowLimit`, `subNumber` and sub-entry access.
`rawToType` is passed in as an explicit conversion function. -/

/-- Access type of a dictionary (sub-)entry. -/
inductive AccessType where
  | constant
  | readOnly
  | readWrite
  | writeOnly
deriving DecidableEq, Repr

/-- The fields of a dictionary slot that the SDO handlers touch. -/
structure SubEntry where
  accessType : AccessType
  raw : List Nat
  highLimit : Option Int
  lowLimit : Option Int
deriving DecidableEq, Repr

/-- Modelled from the spec: `entry.size` of the eds module (not under src)
is the byte length of the raw value (spec section 4.7 pairs `size: usize`
with `raw: bytes`). -/
def SubEntry.size (e : SubEntry) : Nat := e.raw.length

/-- A top-level dictionary entry: its own slot plus optional sub-entries
(`subNumber > 0` makes it a composite that is indexed by sub-index). -/
structure Entry where
  top : SubEntry
  subNumber : Nat
  subs : List (Nat × SubEntry)
deriving DecidableEq, Repr

/-- The object dictionary: an association of indices to entries. -/
def Eds := List (Nat × Entry)

instance : DecidableEq Eds := by
  unfold Eds; infer_instance

/-- eds.getEntry(index). -/
def Eds.getEntry (eds : Eds) (index : Nat) : Option Entry :=
  List.lookup index eds

/-- The repeated sub-entry selection block of the server handlers: look up
the entry, then `if (entry.subNumber > 0) entry = entry[subIndex]`, failing
with OBJECT_UNDEFINED or BAD_SUB_INDEX respectively. -/
def Eds.resolveSub (eds : Eds) (index subIndex : Nat) : Except Nat SubEntry :=
  match Eds.getEntry eds index with
  | none => .error SdoCode.OBJECT_UNDEFINED
  | some entry =>
    if entry.subNumber > 0 then
      match List.lookup subIndex entry.subs with
      | none => .error SdoCode.BAD_SUB_INDEX
      | some se => .ok se
    else
      .ok entry.top

/-- Write `raw` into the slot selected by the same sub-entry rule
(`entry.raw = raw` on the resolved entry object). -/
def Entry.setRaw (e : Entry) (subIndex : Nat) (raw : List Nat) : Entry :=
  if e.subNumber > 0 then
    { e with subs := e.subs.map fun p => if p.1 = subIndex then (p.1, { p.2 with raw := raw }) else p }
  else
    { e with top := { e.top with raw := raw } }

/-- Commit a raw value into the dictionary at (index, subIndex). -/
def Eds.setRaw (eds : Eds) (index subIndex : Nat) (raw : List Nat) : Eds :=
  eds.map fun p => if p.1 = index then (p.1, p.2.setRaw subIndex raw) else p

/-- Convenience read-back of the raw bytes at (index, subIndex). -/
def Eds.getRaw (eds : Eds) (index subIndex : Nat) : Option (List Nat) :=
  match Eds.resolveSub eds index subIndex with
  | .ok se => some se.raw
  | .error _ => none

/-- Range check against an optional limit: `value > highLimit`. -/
def aboveLimit (lim : Option Int) (v : Int) : Bool :=
  match lim with
  | some l => decide (l < v)
  | none => false

/-- Range check against an optional limit: `value < lowLimit`. -/
def belowLimit (lim : Option Int) (v : Int) : Bool :=
  match lim with
  | some l => decide (v < l)
  | none => false

/-- A concrete rawToType conversion used for evaluation: little-endian
unsigned integer of the raw bytes. -/
def rawToIntLE (raw : List Nat) : Int :=
  match raw with
  | [] => 0
  | x :: xs => Int.ofNat (x % 256) + 256 * rawToIntLE xs

/-! ## SdoServer handlers -/

/-- One handler step on the server side: the updated dictionary, the
updated per-client context, the frames sent, and the completion outcome. -/
structure SrvStep where
  eds : Eds
  t : Transfer
  out : List (List Nat)
  res : Completion
deriving DecidableEq

namespace SdoServer

/-- Server abort: emit the abort frame and reject the context. -/
def abortStep (eds : Eds) (t : Transfer) (code : Nat) : SrvStep :=
  ⟨eds, { t with active := false }, [t.abortFrame code], .rejected code⟩

/-- SdoServer downloadInitiate handler.  `rawToType` abstracts the eds
conversion used for the range check. -/
def downloadInitiate (rawToType : List Nat → Int) (eds : Eds) (t : Transfer)
    (d : List Nat) : SrvStep :=
  let t := { t with index := readU16LE d 1, subIndex := readU8 d 3 }
  if readU8 d 0 &&& 0x02 ≠ 0 then
    -- Expedited transfer
    match Eds.resolveSub eds t.index t.subIndex with
    | .error code => abortStep eds t code
    | .ok se =>
      if se.accessType = AccessType.constant ∨ se.accessType = AccessType.readOnly then
        abortStep eds t SdoCode.READ_ONLY
      else
        let count := if readU8 d 0 &&& 1 ≠ 0 then 4 - ((readU8 d 0 >>> 2) &&& 3) else 4
        let raw := ((d.drop 4).take count ++ List.replicate count 0).take count
        let value := rawToType raw
        if aboveLimit se.highLimit value then
          abortStep eds t SdoCode.VALUE_HIGH
        else if belowLimit se.lowLimit value then
          abortStep eds t SdoCode.VALUE_LOW
        else
          let ack := setByte (SdoClient.headerBytes t.index t.subIndex) 0
            (ServerCommand.DOWNLOAD_INITIATE <<< 5)
          ⟨Eds.setRaw eds t.index t.subIndex raw, t, [ack], .pending⟩
  else
    -- Segmented transfer: reset the accumulator; the declared size at
    -- bytes 4..7 of the frame is never read.
    let t := { t with data := [], size := 0, toggle := 0, active := true }
    let ack := setByte (SdoClient.headerBytes t.index t.subIndex) 0
      (ServerCommand.DOWNLOAD_INITIATE <<< 5)
    ⟨eds, t, [ack], .pending⟩

/-- SdoServer downloadSegment handler. -/
def downloadSegment (rawToType : List Nat → Int) (eds : Eds) (t : Transfer)
    (d : List Nat) : SrvStep :=
  if (readU8 d 0 &&& 0x10) ≠ (t.toggle <<< 4) then
    abortStep eds t SdoCode.TOGGLE_BIT
  else
    let count := 7 - ((readU8 d 0 >>> 1) &&& 0x7)
    let payload := (d.drop 1).take count
    let size := t.data.length + count
    let t := { t with data := bufConcat t.data payload size }
    let ackOf : Transfer → List Nat := fun tr =>
      setByte zero8 0 ((ServerCommand.DOWNLOAD_SEGMENT <<< 5) ||| (tr.toggle <<< 4))
    if readU8 d 0 &&& 1 ≠ 0 then
      match Eds.resolveSub eds t.index t.subIndex with
      | .error code => abortStep eds t code
      | .ok se =>
        if se.accessType = AccessType.constant ∨ se.accessType = AccessType.readOnly then
          abortStep eds t SdoCode.READ_ONLY
        else
          let raw := (t.data ++ List.replicate size 0).take size
          let value := rawToType raw
          if aboveLimit se.highLimit value then
            abortStep eds t SdoCode.VALUE_HIGH
          else if belowLimit se.lowLimit value then
            abortStep eds t SdoCode.VALUE_LOW
          else
            let ack := ackOf t
            ⟨Eds.setRaw eds t.index t.subIndex raw,
              { t with active := false, toggle := t.toggle ^^^ 1 }, [ack], .resolved none⟩
    else
      let ack := ackOf t
      ⟨eds, { t with toggle := t.toggle ^^^ 1 }, [ack], .pending⟩

/-- SdoServer uploadInitiate handler. -/
def uploadInitiate (eds : Eds) (t : Transfer) (d : List Nat) : SrvStep :=
  let t := { t with index := readU16LE d 1, subIndex := readU8 d 3 }
  match Eds.resolveSub eds t.index t.subIndex with
  | .error code => abortStep eds t code
  | .ok se =>
    if se.accessType = AccessType.writeOnly then
      abortStep eds t SdoCode.WRITE_ONLY
    else if se.size ≤ 4 then
      -- Expedited transfer
      let header := (ServerCommand.UPLOAD_INITIATE <<< 5) ||| ((4 - se.size) <<< 2) ||| 0x2
      let b := writeBytes (setByte (writeU16LE (setByte zero8 0 header) 1 t.index) 3 t.subIndex) 4 se.raw
      let b := if se.size < 4 then setByte b 0 (readU8 b 0 ||| ((4 - se.size) <<< 2) ||| 0x1) else b
      ⟨eds, t, [b], .pending⟩
    else
      -- Segmented transfer
      let t := { t with data := se.raw, size := 0, toggle := 0, active := true }
      let header := (ServerCommand.UPLOAD_INITIATE <<< 5) ||| 0x1
      let b := writeU32LE (setByte (writeU16LE (setByte zero8 0 header) 1 t.index) 3 t.subIndex) 4 t.data.length
      ⟨eds, t, [b], .pending⟩

/-- SdoServer uploadSegment handler. -/
def uploadSegment (eds : Eds) (t : Transfer) (d : List Nat) : SrvStep :=
  if (readU8 d 0 &&& 0x10) ≠ (t.toggle <<< 4) then
    abortStep eds t SdoCode.TOGGLE_BIT
  else
    let count := min 7 (t.data.length - t.size)
    let chunk := (t.data.drop t.size).take count
    let header0 := (t.toggle <<< 4) ||| ((7 - count) <<< 1)
    let last := t.size = t.data.length
    let header := if last then header0 ||| 1 else header0
    let frame := setByte (writeBytes zero8 1 chunk) 0 header
    let act : Bool := if last then false else t.active
    let t := { t with active := act, toggle := t.toggle ^^^ 1, size := t.size + count }
    ⟨eds, t, [frame], if last then .resolved none else .pending⟩

/-- SdoServer onMessage dispatch, keyed on the client command specifier.
The ABORT case calls `reject` with no argument and sends nothing. -/
def onMessage (rawToType : List Nat → Int) (eds : Eds) (t : Transfer)
    (d : List Nat) : SrvStep :=
  if readU8 d 0 >>> 5 = ClientCommand.DOWNLOAD_SEGMENT then
    downloadSegment rawToType eds t d
  else if readU8 d 0 >>> 5 = ClientCommand.DOWNLOAD_INITIATE then
    downloadInitiate rawToType eds t d
  else if readU8 d 0 >>> 5 = ClientCommand.UPLOAD_INITIATE then
    uploadInitiate eds t d
  else if readU8 d 0 >>> 5 = ClientCommand.UPLOAD_SEGMENT then
    uploadSegment eds t d
  else if readU8 d 0 >>> 5 = ClientCommand.ABORT then
    ⟨eds, { t with active := false }, [], .rejected 0⟩
  else
    abortStep eds t SdoCode.BAD_COMMAND

end SdoServer

/-! ## Client server-table lookup with default fallback -/

/-- COB-ID pair of a known server in the client peer table. -/
structure ServerCfg where
  cobIdTx : Nat
  cobIdRx : Nat
deriving DecidableEq, Repr

/-- The server-resolution prelude shared by SdoClient.upload and
SdoClient.download: use the mapped server when present; otherwise derive
COB-IDs from the default server 0 (ORing the serverId into a COB-ID whose
low nibble is zero) and install the new entry; throw ReferenceError when
neither is mapped. -/
def SdoClient.resolveServer (servers : List (Nat × ServerCfg)) (serverId : Nat) :
    Except String (ServerCfg × List (Nat × ServerCfg)) :=
  match List.lookup serverId servers with
  | some s => .ok (s, servers)
  | none =>
    match List.lookup 0 servers with
    | none => .error "SDO server not mapped."
    | some s0 =>
      let cobIdRx := if s0.cobIdRx &&& 0xF = 0 then s0.cobIdRx ||| serverId else s0.cobIdRx
      let cobIdTx := if s0.cobIdTx &&& 0xF = 0 then s0.cobIdTx ||| serverId else s0.cobIdTx
      let cfg : ServerCfg := ⟨cobIdTx, cobIdRx⟩
      .ok (cfg, (serverId, cfg) :: servers)

/-! ## Queue: per-server FIFO of pending transfers

Transfers are identified by a Nat tag; the state keeps the queued tags in
arrival order and, when `pending` is set, the tag whose thunk is running. -/

/-- Queue state: the array of waiting thunks and the pending flag, which
here also records which transfer is running. -/
structure QueueState where
  queue : List Nat
  pending : Option Nat
deriving DecidableEq, Repr

/-- Observable events of the queue: a transfer thunk is started, or its
promise settles (resolve or reject). -/
inductive QEvent where
  | start (id : Nat)
  | finish (id : Nat)
deriving DecidableEq, Repr

/-- Operations driven from outside: push a new transfer, or the completion
callback of the running transfer fires. -/
inductive QOp where
  | push (id : Nat)
  | complete
deriving DecidableEq, Repr

namespace Queue

/-- The initial queue: empty, not pending. -/
def init : QueueState := ⟨[], none⟩

/-- Queue.pop: if not pending and the queue is nonempty, shift the front
transfer, set pending and start it. -/
def pop (s : QueueState) : QueueState × List QEvent :=
  if s.pending.isSome then (s, [])
  else
    match s.queue with
    | [] => (s, [])
    | x :: xs => (⟨xs, some x⟩, [.start x])

/-- Queue.push: append the transfer, then pop. -/
def push (s : QueueState) (id : Nat) : QueueState × List QEvent :=
  pop ⟨s.queue ++ [id], s.pending⟩

/-- Completion callback of the running thunk (either branch): clear
pending, settle the caller promise, and pop the next transfer. -/
def complete (s : QueueState) : QueueState × List QEvent :=
  match s.pending with
  | none => (s, [])
  | some x => ((pop ⟨s.queue, none⟩).1, .finish x :: (pop ⟨s.queue, none⟩).2)

/-- One external operation. -/
def step (s : QueueState) : QOp → QueueState × List QEvent
  | .push id => push s id
  | .complete => complete s

/-- Run a list of operations, accumulating the event trace. -/
def run (s : QueueState) : List QOp → QueueState × List QEvent
  | [] => (s, [])
  | op :: ops =>
    ((run (step s op).1 ops).1, (step s op).2 ++ (run (step s op).1 ops).2)

/-- The ids pushed by an operation list, in submission order. -/
def pushedIds : List QOp → List Nat
  | [] => []
  | .push id :: ops => id :: pushedIds ops
  | .complete :: ops => pushedIds ops

/-- The ids started in an event trace, in order. -/
def startedIds : List QEvent → List Nat
  | [] => []
  | .start id :: evs => id :: startedIds evs
  | .finish _ :: evs => startedIds evs

/-- Validity scan of a trace: a transfer may start only when none is
running, and only the running transfer may finish.  Returns the transfer
still running at the end, `none` if the trace is invalid. -/
def altRun : Option Nat → List QEvent → Option (Option Nat)
  | p, [] => some p
  | none, .start x :: evs => altRun (some x) evs
  | some x, .finish y :: evs => if x = y then altRun none evs else none
  | _, _ => none

end Queue

/-! ## Buffer lemmas -/

theorem length_setByte (b : List Nat) (i v : Nat) : (setByte b i v).length = b.length := by
  simp [setByte]

theorem readU8_setByte_self (b : List Nat) (i v : Nat) (h : i < b.length) :
    readU8 (setByte b i v) i = v % 256 := by
  simp [setByte, readU8, List.getD, List.getElem?_set_self, h]

theorem readU8_setByte_ne (b : List Nat) (i j v : Nat) (h : i ≠ j) :
    readU8 (setByte b i v) j = readU8 b j := by
  simp [setByte, readU8, List.getD, List.getElem?_set_ne h]

theorem length_writeBytes (src : List Nat) (b : List Nat) (i : Nat) :
    (writeBytes b i src).length = b.length := by
  induction src generalizing b i with
  | nil => rfl
  | cons x xs ih => simp [writeBytes, ih, length_setByte]

theorem readU8_writeBytes_lt (src : List Nat) (b : List Nat) (i j : Nat) (h : j < i) :
    readU8 (writeBytes b i src) j = readU8 b j := by
  induction src generalizing b i with
  | nil => rfl
  | cons x xs ih =>
    rw [writeBytes, ih _ _ (Nat.lt_succ_of_lt h), readU8_setByte_ne _ _ _ _ (Nat.ne_of_gt h)]

theorem length_writeU16LE (b : List Nat) (i v : Nat) : (writeU16LE b i v).length = b.length := by
  simp [writeU16LE, length_setByte]

theorem length_writeU32LE (b : List Nat) (i v : Nat) : (writeU32LE b i v).length = b.length := by
  simp [writeU32LE, length_setByte]

theorem readU8_writeU16LE_ne (b : List Nat) (i j v : Nat) (h1 : i ≠ j) (h2 : i + 1 ≠ j) :
    readU8 (writeU16LE b i v) j = readU8 b j := by
  rw [writeU16LE, readU8_setByte_ne _ _ _ _ h2, readU8_setByte_ne _ _ _ _ h1]

theorem readU8_writeU32LE_ne (b : List Nat) (i j v : Nat)
    (h1 : i ≠ j) (h2 : i + 1 ≠ j) (h3 : i + 2 ≠ j) (h4 : i + 3 ≠ j) :
    readU8 (writeU32LE b i v) j = readU8 b j := by
  rw [writeU32LE, readU8_setByte_ne _ _ _ _ h4, readU8_setByte_ne _ _ _ _ h3,
    readU8_setByte_ne _ _ _ _ h2, readU8_setByte_ne _ _ _ _ h1]

theorem length_zero8 : zero8.length = 8 := by
  simp [zero8]

theorem length_headerBytes (i s : Nat) : (SdoClient.headerBytes i s).length = 8 := by
  simp [SdoClient.headerBytes, length_setByte, length_writeU16LE, zero8]

theorem readU8_writeU32LE_self (b : List Nat) (i v : Nat) (h : i + 3 < b.length) :
    readU8 (writeU32LE b i v) i = v % 256 ∧
    readU8 (writeU32LE b i v) (i + 1) = (v >>> 8) % 256 ∧
    readU8 (writeU32LE b i v) (i + 2) = (v >>> 16) % 256 ∧
    readU8 (writeU32LE b i v) (i + 3) = (v >>> 24) % 256 := by
  unfold writeU32LE
  refine ⟨?_, ?_, ?_, ?_⟩
  · rw [readU8_setByte_ne _ _ _ _ (by omega), readU8_setByte_ne _ _ _ _ (by omega),
      readU8_setByte_ne _ _ _ _ (by omega), readU8_setByte_self]
    omega
  · rw [readU8_setByte_ne _ _ _ _ (by omega), readU8_setByte_ne _ _ _ _ (by omega),
      readU8_setByte_self]
    rw [length_setByte]; omega
  · rw [readU8_setByte_ne _ _ _ _ (by omega), readU8_setByte_self]
    rw [length_setByte, length_setByte]; omega
  · rw [readU8_setByte_self]
    rw [length_setByte, length_setByte, length_setByte]; omega

theorem readU32LE_writeU32LE (b : List Nat) (i v : Nat) (h : i + 3 < b.length) :
    readU32LE (writeU32LE b i v) i = v % 4294967296 := by
  obtain ⟨h0, h1, h2, h3⟩ := readU8_writeU32LE_self b i v h
  rw [readU32LE, h0, h1, h2, h3]
  simp only [Nat.shiftRight_eq_div_pow]
  norm_num
  omega

/-- The abort frame always starts with command byte 0x80. -/
theorem readU8_abortFrame_zero (t : Transfer) (code : Nat) :
    readU8 (t.abortFrame code) 0 = 0x80 := by
  unfold Transfer.abortFrame
  rw [readU8_writeU32LE_ne _ _ _ _ (by omega) (by omega) (by omega) (by omega),
    readU8_setByte_ne _ _ _ _ (by omega),
    readU8_writeU16LE_ne _ _ _ _ (by omega) (by omega),
    readU8_setByte_self zero8 0 0x80 (by rw [length_zero8]; omega)]

/-- Bytes 4..7 of the abort frame hold the abort code, little-endian. -/
theorem readU32LE_abortFrame (t : Transfer) (code : Nat) :
    readU32LE (t.abortFrame code) 4 = code % 4294967296 := by
  unfold Transfer.abortFrame
  apply readU32LE_writeU32LE
  rw [length_setByte, length_writeU16LE, length_setByte, length_zero8]
  omega

/-- The sub-entry resolution block fails only with OBJECT_UNDEFINED or
BAD_SUB_INDEX. -/
theorem resolveSub_error_codes (eds : Eds) (i s c : Nat)
    (h : Eds.resolveSub eds i s = .error c) :
    c = SdoCode.OBJECT_UNDEFINED ∨ c = SdoCode.BAD_SUB_INDEX := by
  unfold Eds.resolveSub at h
  split at h
  · exact Or.inl (Except.error.inj h).symm
  · split at h
    · split at h
      · exact Or.inr (Except.error.inj h).symm
      · exact absurd h (by simp)
    · exact absurd h (by simp)

/-! ## Claim theorems -/

/-- C2: the claim states that SdoCode.DATA_SHORT equals 0x06070013 and is
distinct from SdoCode.DATA_LONG (0x06070012).  The source instead assigns
DATA_SHORT the value 0x06070012, identical to DATA_LONG, contradicting its
own doc comment (length too short is 0x06070013 in CiA 301) and the legacy
abort-code table in protocol/SDO.js.  This theorem evaluates the embedded
constants at the failing input. -/
theorem C2_data_short_value :
    SdoCode.DATA_SHORT = 0x06070012 ∧
    SdoCode.DATA_SHORT = SdoCode.DATA_LONG ∧
    SdoCode.DATA_SHORT ≠ 0x06070013 := by
  decide

/-- C6 counterexample: a client download with a 0-byte payload is encoded
as an expedited initiate frame (command byte 0x33, expedited bit set), not
as a segmented transfer as the claim states. -/
theorem C6_counterexample :
    readU8 (SdoClient.downloadInitFrame 0x2001 0 []) 0 = 0x33 ∧
    readU8 (SdoClient.downloadInitFrame 0x2001 0 []) 0 &&& 0x02 ≠ 0 ∧
    readU8 (SdoClient.downloadInitFrame 0x2001 0 []) 0 ≠ 0x21 := by
  decide

/-- C6 amended: SdoClient.download chooses the segmented encoding exactly
when the payload exceeds 4 bytes; every payload of 4 bytes or fewer,
including the empty payload, is sent expedited with command byte
`0x23 ||| ((4 - n) <<< 2)` (for n = 0 the unused-bytes field overflows
into bit 4, giving 0x33). -/
theorem C6_amended (index subIndex : Nat) (data : List Nat) :
    readU8 (SdoClient.downloadInitFrame index subIndex data) 0 =
      if data.length > 4 then 0x21 else 0x23 ||| ((4 - data.length) <<< 2) := by
  unfold SdoClient.downloadInitFrame
  by_cases h : data.length > 4
  · rw [if_pos h, if_pos h, readU8_setByte_self]
    · decide
    · rw [length_writeU32LE, length_headerBytes]; norm_num
  · rw [if_neg h, if_neg h, readU8_writeBytes_lt _ _ _ _ (by norm_num), readU8_setByte_self]
    · push_neg at h
      obtain ⟨n, hn⟩ : ∃ n, data.length = n := ⟨_, rfl⟩
      rw [hn] at h ⊢
      interval_cases n <;> decide
    · rw [length_headerBytes]; norm_num

/-- C4 counterexample: on receipt of an ABORT frame (code 0x06010002 in
bytes 4..7) the client transfer does reject with the embedded code, but it
also sends an abort frame of its own — the outbound frame list is not
empty and starts with command byte 0x80 — contradicting the claim that the
client emits no abort frame in response. -/
theorem C4_counterexample :
    (SdoClient.onMessage ⟨0x2000, 0, [], 0, 0, true, 0x60B⟩
        [0x80, 0x00, 0x20, 0x00, 0x02, 0x00, 0x01, 0x06]).res =
      Completion.rejected 0x06010002 ∧
    (SdoClient.onMessage ⟨0x2000, 0, [], 0, 0, true, 0x60B⟩
        [0x80, 0x00, 0x20, 0x00, 0x02, 0x00, 0x01, 0x06]).out ≠ [] ∧
    readU8 ((SdoClient.onMessage ⟨0x2000, 0, [], 0, 0, true, 0x60B⟩
        [0x80, 0x00, 0x20, 0x00, 0x02, 0x00, 0x01, 0x06]).out.getD 0 []) 0 = 0x80 := by
  decide

/-- C4 amended: for every client transfer, an inbound frame whose command
specifier is ABORT makes the transfer reject with the code embedded in
bytes 4..7 — but via Transfer.abort, so the client additionally emits an
abort frame of its own echoing that code before rejecting. -/
theorem C4_amended (t : Transfer) (d : List Nat)
    (h : readU8 d 0 >>> 5 = ServerCommand.ABORT) :
    SdoClient.onMessage t d = Transfer.abortStep t (readU32LE d 4) ∧
    (SdoClient.onMessage t d).res = Completion.rejected (readU32LE d 4) ∧
    (SdoClient.onMessage t d).out = [t.abortFrame (readU32LE d 4)] := by
  have hm : SdoClient.onMessage t d = Transfer.abortStep t (readU32LE d 4) := by
    unfold SdoClient.onMessage
    rw [h]
    norm_num [ServerCommand.ABORT, ServerCommand.UPLOAD_SEGMENT,
      ServerCommand.DOWNLOAD_SEGMENT, ServerCommand.UPLOAD_INITIATE,
      ServerCommand.DOWNLOAD_INITIATE]
  exact ⟨hm, by rw [hm]; rfl, by rw [hm]; rfl⟩

/-- C4 amended witness at a concrete abort frame. -/
theorem C4_amended_witness :
    SdoClient.onMessage ⟨0x2000, 0, [], 0, 0, true, 0x60B⟩
        [0x80, 0x00, 0x20, 0x00, 0x00, 0x00, 0x03, 0x05] =
      Transfer.abortStep ⟨0x2000, 0, [], 0, 0, true, 0x60B⟩
        (readU32LE [0x80, 0x00, 0x20, 0x00, 0x00, 0x00, 0x03, 0x05] 4) :=
  (C4_amended ⟨0x2000, 0, [], 0, 0, true, 0x60B⟩
    [0x80, 0x00, 0x20, 0x00, 0x00, 0x00, 0x03, 0x05] (by decide)).1

/-- C7: a segment frame whose toggle bit does not match the active client
transfer toggles the abort path in both segment handlers: the handler
equals Transfer.abort with TOGGLE_BIT, the emitted frame starts with 0x80
and carries 0x05030000 little-endian in bytes 4..7, and the promise
rejects with 0x05030000. -/
theorem C7_toggle_mismatch_aborts (t : Transfer) (d : List Nat)
    (hact : t.active = true)
    (hmis : (readU8 d 0 &&& 0x10) ≠ (t.toggle <<< 4)) :
    SdoClient.uploadSegment t d = Transfer.abortStep t SdoCode.TOGGLE_BIT ∧
    SdoClient.downloadSegment t d = Transfer.abortStep t SdoCode.TOGGLE_BIT ∧
    (SdoClient.uploadSegment t d).res = Completion.rejected 0x05030000 ∧
    (SdoClient.uploadSegment t d).out = [t.abortFrame 0x05030000] ∧
    readU8 (t.abortFrame 0x05030000) 0 = 0x80 ∧
    readU32LE (t.abortFrame 0x05030000) 4 = 0x05030000 := by
  have h1 : SdoClient.uploadSegment t d = Transfer.abortStep t SdoCode.TOGGLE_BIT := by
    unfold SdoClient.uploadSegment
    rw [hact]
    simp [hmis]
  have h2 : SdoClient.downloadSegment t d = Transfer.abortStep t SdoCode.TOGGLE_BIT := by
    unfold SdoClient.downloadSegment
    rw [hact]
    simp [hmis]
  refine ⟨h1, h2, by rw [h1]; rfl, by rw [h1]; rfl, readU8_abortFrame_zero t _, ?_⟩
  rw [readU32LE_abortFrame]

/-- C7 witness: the toggle-violation scenario of the spec, server answering
the first download segment with header 0x30 while toggle 0 is expected. -/
theorem C7_witness :
    SdoClient.uploadSegment ⟨0x2002, 0, [], 10, 0, true, 0x60B⟩
        [0x30, 0, 0, 0, 0, 0, 0, 0] =
      Transfer.abortStep ⟨0x2002, 0, [], 10, 0, true, 0x60B⟩ SdoCode.TOGGLE_BIT ∧
    SdoClient.downloadSegment ⟨0x2002, 0, [], 10, 0, true, 0x60B⟩
        [0x30, 0, 0, 0, 0, 0, 0, 0] =
      Transfer.abortStep ⟨0x2002, 0, [], 10, 0, true, 0x60B⟩ SdoCode.TOGGLE_BIT := by
  have h := C7_toggle_mismatch_aborts ⟨0x2002, 0, [], 10, 0, true, 0x60B⟩
    [0x30, 0, 0, 0, 0, 0, 0, 0] (by decide) (by decide)
  exact ⟨h.1, h.2.1⟩

/-- C10: when upload/download is called with an unmapped serverId, the
client falls back on the default server 0 entry when present: the derived
COB-IDs OR the serverId into any COB-ID whose low nibble is zero, the new
configuration is installed in the peer table, and the call succeeds; the
ReferenceError is raised only when server 0 is unmapped as well. -/
theorem C10_default_server (servers : List (Nat × ServerCfg)) (serverId : Nat)
    (h : List.lookup serverId servers = none) :
    (∀ s0, List.lookup 0 servers = some s0 →
      SdoClient.resolveServer servers serverId =
        Except.ok
          (⟨(if s0.cobIdTx &&& 0xF = 0 then s0.cobIdTx ||| serverId else s0.cobIdTx),
            (if s0.cobIdRx &&& 0xF = 0 then s0.cobIdRx ||| serverId else s0.cobIdRx)⟩,
            (serverId,
              (⟨(if s0.cobIdTx &&& 0xF = 0 then s0.cobIdTx ||| serverId else s0.cobIdTx),
                (if s0.cobIdRx &&& 0xF = 0 then s0.cobIdRx ||| serverId else s0.cobIdRx)⟩ :
                ServerCfg)) :: servers)) ∧
    (List.lookup 0 servers = none →
      SdoClient.resolveServer servers serverId = Except.error "SDO server not mapped.") := by
  constructor
  · intro s0 h0
    unfold SdoClient.resolveServer
    rw [h, h0]
  · intro h0
    unfold SdoClient.resolveServer
    rw [h, h0]

/-- C10 witness: serverId 11 against a table mapping only server 0 with
the standard COB-IDs 0x600/0x580 yields 0x60B/0x58B and installs the new
entry. -/
theorem C10_witness :
    SdoClient.resolveServer [(0, ⟨0x600, 0x580⟩)] 11 =
      Except.ok (⟨0x60B, 0x58B⟩, [(11, ⟨0x60B, 0x58B⟩), (0, ⟨0x600, 0x580⟩)]) := by
  have h := (C10_default_server [(0, ⟨0x600, 0x580⟩)] 11 (by decide)).1
    ⟨0x600, 0x580⟩ (by decide)
  simpa using h

/-- C3 counterexample: the server initiate reply 0x40 does not set the
size-indicated bit, so the transfer size stays 0; on the final segment
(header 0x09, three payload bytes) the client aborts with BAD_LENGTH and
rejects, instead of resolving with the accumulated buffer as claimed. -/
theorem C3_counterexample :
    readU8 [0x40, 0x00, 0x20, 0x00, 0, 0, 0, 0] 0 &&& 1 = 0 ∧
    (SdoClient.uploadInitiate ⟨0x2000, 0, [], 0, 0, true, 0x60B⟩
        [0x40, 0x00, 0x20, 0x00, 0, 0, 0, 0]).res = Completion.pending ∧
    (SdoClient.uploadSegment
        (SdoClient.uploadInitiate ⟨0x2000, 0, [], 0, 0, true, 0x60B⟩
          [0x40, 0x00, 0x20, 0x00, 0, 0, 0, 0]).t
        [0x09, 0xAA, 0xBB, 0xCC, 0, 0, 0, 0]).res =
      Completion.rejected SdoCode.BAD_LENGTH ∧
    (SdoClient.uploadSegment
        (SdoClient.uploadInitiate ⟨0x2000, 0, [], 0, 0, true, 0x60B⟩
          [0x40, 0x00, 0x20, 0x00, 0, 0, 0, 0]).t
        [0x09, 0xAA, 0xBB, 0xCC, 0, 0, 0, 0]).out ≠ [] := by
  decide

/-- C3 amended: on a final upload segment the client always compares the
accumulated length against transfer.size.  When the server initiate reply
did not carry a size indication, transfer.size keeps its initial value 0,
so every segmented upload whose accumulated payload is nonempty aborts
with BAD_LENGTH on the last segment instead of resolving. -/
theorem C3_amended (t : Transfer) (d : List Nat)
    (hact : t.active = true)
    (htog : (readU8 d 0 &&& 0x10) = (t.toggle <<< 4))
    (hlast : readU8 d 0 &&& 1 ≠ 0)
    (hsize : t.size = 0)
    (hacc : t.data.length + (7 - ((readU8 d 0 >>> 1) &&& 0x7)) ≠ 0) :
    SdoClient.uploadSegment t d = Transfer.abortStep t SdoCode.BAD_LENGTH := by
  unfold SdoClient.uploadSegment
  rw [hact]
  rw [if_neg (by simp)]
  rw [if_neg (not_not_intro htog)]
  simp only []
  rw [if_pos hlast]
  rw [if_pos (show t.size ≠ t.data.length + (7 - ((readU8 d 0 >>> 1) &&& 0x7)) by omega)]

/-- C5 counterexample: an upload-initiate against an entry of size exactly
4 (raw [1,2,3,4], READ_WRITE) is answered with command byte 0x42 — the
expedited bit is set but the size-indicated bit (bit 0) is 0, contradicting
the claim that both e and s are 1 for every size at most 4. -/
theorem C5_counterexample :
    (SdoServer.uploadInitiate
        [(0x2000, ⟨⟨AccessType.readWrite, [1, 2, 3, 4], none, none⟩, 0, []⟩)]
        ⟨0, 0, [], 0, 0, false, 0x58B⟩
        [0x40, 0x00, 0x20, 0x00, 0, 0, 0, 0]).out =
      [[0x42, 0x00, 0x20, 0x00, 1, 2, 3, 4]] ∧
    readU8 ((SdoServer.uploadInitiate
        [(0x2000, ⟨⟨AccessType.readWrite, [1, 2, 3, 4], none, none⟩, 0, []⟩)]
        ⟨0, 0, [], 0, 0, false, 0x58B⟩
        [0x40, 0x00, 0x20, 0x00, 0, 0, 0, 0]).out.getD 0 []) 0 &&& 1 = 0 := by
  decide

instance {ε α : Type} [DecidableEq ε] [DecidableEq α] : DecidableEq (Except ε α)
  | .error a, .error b =>
    decidable_of_iff (a = b) ⟨fun h => by rw [h], fun h => by injection h⟩
  | .error _, .ok _ => isFalse fun h => by injection h
  | .ok _, .error _ => isFalse fun h => by injection h
  | .ok a, .ok b =>
    decidable_of_iff (a = b) ⟨fun h => by rw [h], fun h => by injection h⟩

/-- C5 amended: for every upload-initiate whose resolved entry has size at
most 4, the expedited reply carries n = 4 - size in bits 3..2 (modulo 4:
for size 0 the field `(4-size) <<< 2` overflows into bit 4) and the
expedited flag e (bit 1); the size-indicated flag s (bit 0) is set exactly
when size < 4 and remains 0 when size = 4. -/
theorem C5_amended (eds : Eds) (t : Transfer) (d : List Nat) (se : SubEntry)
    (hres : Eds.resolveSub eds (readU16LE d 1) (readU8 d 3) = .ok se)
    (hacc : se.accessType ≠ AccessType.writeOnly)
    (hsize : se.size ≤ 4) :
    ∃ frame, (SdoServer.uploadInitiate eds t d).out = [frame] ∧
      readU8 frame 0 >>> 5 = 2 ∧
      (readU8 frame 0 >>> 2) &&& 3 = (4 - se.size) % 4 ∧
      readU8 frame 0 &&& 2 = 2 ∧
      readU8 frame 0 &&& 1 = (if se.size < 4 then 1 else 0) := by
  unfold SdoServer.uploadInitiate
  simp only []
  rw [hres]
  simp only []
  rw [if_neg hacc, if_pos hsize]
  have hlen : ∀ v : Nat,
      (writeBytes (setByte (writeU16LE (setByte zero8 0 v) 1 (readU16LE d 1)) 3 (readU8 d 3)) 4
        se.raw).length = 8 := by
    intro v
    rw [length_writeBytes, length_setByte, length_writeU16LE, length_setByte, length_zero8]
  have hb0 : ∀ v : Nat,
      readU8 (writeBytes (setByte (writeU16LE (setByte zero8 0 v) 1 (readU16LE d 1)) 3
        (readU8 d 3)) 4 se.raw) 0 = v % 256 := by
    intro v
    rw [readU8_writeBytes_lt _ _ _ _ (by omega),
      readU8_setByte_ne _ _ _ _ (by omega),
      readU8_writeU16LE_ne _ _ _ _ (by omega) (by omega),
      readU8_setByte_self _ _ _ (by rw [length_zero8]; omega)]
  by_cases h4 : se.size < 4
  · rw [if_pos h4]
    simp only []
    refine ⟨_, rfl, ?_⟩
    rw [readU8_setByte_self _ _ _ (by rw [hlen]; omega), hb0]
    obtain ⟨n, hn⟩ : ∃ n, se.size = n := ⟨_, rfl⟩
    rw [hn] at h4 ⊢
    interval_cases n <;> decide
  · rw [if_neg h4]
    refine ⟨_, rfl, ?_⟩
    rw [hb0]
    have hn4 : se.size = 4 := by omega
    rw [hn4]
    decide

/-- C5 amended witness at a 3-byte entry (s-bit set) via the theorem. -/
theorem C5_amended_witness :
    ∃ frame, (SdoServer.uploadInitiate
        [(0x2000, ⟨⟨AccessType.readWrite, [1, 2, 3], none, none⟩, 0, []⟩)]
        ⟨0, 0, [], 0, 0, false, 0x58B⟩
        [0x40, 0x00, 0x20, 0x00, 0, 0, 0, 0]).out = [frame] ∧
      readU8 frame 0 >>> 5 = 2 ∧
      (readU8 frame 0 >>> 2) &&& 3 =
        (4 - (⟨AccessType.readWrite, [1, 2, 3], none, none⟩ : SubEntry).size) % 4 ∧
      readU8 frame 0 &&& 2 = 2 ∧
      readU8 frame 0 &&& 1 =
        (if (⟨AccessType.readWrite, [1, 2, 3], none, none⟩ : SubEntry).size < 4 then 1 else 0) :=
  C5_amended [(0x2000, ⟨⟨AccessType.readWrite, [1, 2, 3], none, none⟩, 0, []⟩)]
    ⟨0, 0, [], 0, 0, false, 0x58B⟩ [0x40, 0x00, 0x20, 0x00, 0, 0, 0, 0]
    ⟨AccessType.readWrite, [1, 2, 3], none, none⟩ (by decide) (by decide) (by decide)

/-- C1 counterexample: the initiate frame advertises a total size of 10
bytes, the single final segment delivers only 3; the server nevertheless
commits the 3 accumulated bytes into the entry, resolves the transfer and
answers with a normal segment ack — no frame with command byte 0x80 and no
BAD_LENGTH abort is produced. -/
theorem C1_counterexample :
    readU32LE [0x21, 0x00, 0x20, 0x00, 0x0A, 0, 0, 0] 4 = 10 ∧
    (SdoServer.downloadSegment rawToIntLE
        (SdoServer.downloadInitiate rawToIntLE
          [(0x2000, ⟨⟨AccessType.readWrite, [0, 0, 0], none, none⟩, 0, []⟩)]
          ⟨0, 0, [], 0, 0, false, 0x58B⟩
          [0x21, 0x00, 0x20, 0x00, 0x0A, 0, 0, 0]).eds
        (SdoServer.downloadInitiate rawToIntLE
          [(0x2000, ⟨⟨AccessType.readWrite, [0, 0, 0], none, none⟩, 0, []⟩)]
          ⟨0, 0, [], 0, 0, false, 0x58B⟩
          [0x21, 0x00, 0x20, 0x00, 0x0A, 0, 0, 0]).t
        [0x09, 1, 2, 3, 0, 0, 0, 0]).res = Completion.resolved none ∧
    Eds.getRaw (SdoServer.downloadSegment rawToIntLE
        (SdoServer.downloadInitiate rawToIntLE
          [(0x2000, ⟨⟨AccessType.readWrite, [0, 0, 0], none, none⟩, 0, []⟩)]
          ⟨0, 0, [], 0, 0, false, 0x58B⟩
          [0x21, 0x00, 0x20, 0x00, 0x0A, 0, 0, 0]).eds
        (SdoServer.downloadInitiate rawToIntLE
          [(0x2000, ⟨⟨AccessType.readWrite, [0, 0, 0], none, none⟩, 0, []⟩)]
          ⟨0, 0, [], 0, 0, false, 0x58B⟩
          [0x21, 0x00, 0x20, 0x00, 0x0A, 0, 0, 0]).t
        [0x09, 1, 2, 3, 0, 0, 0, 0]).eds 0x2000 0 = some [1, 2, 3] ∧
    (∀ f ∈ (SdoServer.downloadSegment rawToIntLE
        (SdoServer.downloadInitiate rawToIntLE
          [(0x2000, ⟨⟨AccessType.readWrite, [0, 0, 0], none, none⟩, 0, []⟩)]
          ⟨0, 0, [], 0, 0, false, 0x58B⟩
          [0x21, 0x00, 0x20, 0x00, 0x0A, 0, 0, 0]).eds
        (SdoServer.downloadInitiate rawToIntLE
          [(0x2000, ⟨⟨AccessType.readWrite, [0, 0, 0], none, none⟩, 0, []⟩)]
          ⟨0, 0, [], 0, 0, false, 0x58B⟩
          [0x21, 0x00, 0x20, 0x00, 0x0A, 0, 0, 0]).t
        [0x09, 1, 2, 3, 0, 0, 0, 0]).out, readU8 f 0 ≠ 0x80) := by
  decide

/-- C1 amended: the server ignores the advertised total size of a
segmented download.  Neither segment handling nor initiate handling can
reject with BAD_LENGTH, and the result of a segmented download initiate is
unchanged if bytes 4..7 of the frame (the advertised size) are overwritten
with any value. -/
theorem C1_amended (rt : List Nat → Int) (eds : Eds) (t : Transfer)
    (dseg dinit : List Nat) (v : Nat)
    (hseg : readU8 dinit 0 &&& 0x02 = 0) :
    (SdoServer.downloadSegment rt eds t dseg).res ≠ Completion.rejected SdoCode.BAD_LENGTH ∧
    (SdoServer.downloadInitiate rt eds t dinit).res ≠ Completion.rejected SdoCode.BAD_LENGTH ∧
    SdoServer.downloadInitiate rt eds t (writeU32LE dinit 4 v) =
      SdoServer.downloadInitiate rt eds t dinit := by
  refine ⟨?_, ?_, ?_⟩
  · unfold SdoServer.downloadSegment SdoServer.abortStep
    split
    · simp [SdoCode.TOGGLE_BIT, SdoCode.BAD_LENGTH]
    · simp only []
      split
      · split
        · rename_i code heq
          rcases resolveSub_error_codes _ _ _ _ heq with hc | hc <;>
            simp [hc, SdoCode.OBJECT_UNDEFINED, SdoCode.BAD_SUB_INDEX, SdoCode.BAD_LENGTH]
        · split
          · simp [SdoCode.READ_ONLY, SdoCode.BAD_LENGTH]
          · split
            · simp [SdoCode.VALUE_HIGH, SdoCode.BAD_LENGTH]
            · split
              · simp [SdoCode.VALUE_LOW, SdoCode.BAD_LENGTH]
              · simp
      · simp
  · unfold SdoServer.downloadInitiate
    simp only []
    rw [if_neg (not_not_intro hseg)]
    simp
  · have e0 : readU8 (writeU32LE dinit 4 v) 0 = readU8 dinit 0 :=
      readU8_writeU32LE_ne _ _ _ _ (by omega) (by omega) (by omega) (by omega)
    have e1 : readU8 (writeU32LE dinit 4 v) 1 = readU8 dinit 1 :=
      readU8_writeU32LE_ne _ _ _ _ (by omega) (by omega) (by omega) (by omega)
    have e2 : readU8 (writeU32LE dinit 4 v) 2 = readU8 dinit 2 :=
      readU8_writeU32LE_ne _ _ _ _ (by omega) (by omega) (by omega) (by omega)
    have e3 : readU8 (writeU32LE dinit 4 v) 3 = readU8 dinit 3 :=
      readU8_writeU32LE_ne _ _ _ _ (by omega) (by omega) (by omega) (by omega)
    have e16 : readU16LE (writeU32LE dinit 4 v) 1 = readU16LE dinit 1 := by
      rw [readU16LE, readU16LE, e1, e2]
    unfold SdoServer.downloadInitiate
    simp only []
    rw [e0, e16, e3]
    rw [if_neg (not_not_intro hseg), if_neg (not_not_intro hseg)]

/-- C1 amended witness at a concrete segmented initiate frame. -/
theorem C1_amended_witness :
    (SdoServer.downloadSegment rawToIntLE [] ⟨0x2000, 0, [], 0, 0, true, 0⟩
        [0x01, 1, 2, 3, 4, 5, 6, 7]).res ≠ Completion.rejected SdoCode.BAD_LENGTH ∧
    (SdoServer.downloadInitiate rawToIntLE [] ⟨0, 0, [], 0, 0, false, 0⟩
        [0x21, 0x00, 0x20, 0x00, 0x0A, 0, 0, 0]).res ≠ Completion.rejected SdoCode.BAD_LENGTH ∧
    SdoServer.downloadInitiate rawToIntLE [] ⟨0, 0, [], 0, 0, false, 0⟩
        (writeU32LE [0x21, 0x00, 0x20, 0x00, 0x0A, 0, 0, 0] 4 99) =
      SdoServer.downloadInitiate rawToIntLE [] ⟨0, 0, [], 0, 0, false, 0⟩
        [0x21, 0x00, 0x20, 0x00, 0x0A, 0, 0, 0] :=
  C1_amended rawToIntLE [] ⟨0x2000, 0, [], 0, 0, true, 0⟩
    [0x01, 1, 2, 3, 4, 5, 6, 7] [0x21, 0x00, 0x20, 0x00, 0x0A, 0, 0, 0] 99 (by decide)

/-- The download-initiate handler leaves the dictionary untouched except
in the expedited commit branch, where its outcome stays pending. -/
theorem downloadInitiate_eds_cases (rt : List Nat → Int) (eds : Eds) (t : Transfer)
    (d : List Nat) :
    (SdoServer.downloadInitiate rt eds t d).eds = eds ∨
    ((SdoServer.downloadInitiate rt eds t d).res = Completion.pending ∧
      readU8 d 0 &&& 0x02 ≠ 0) := by
  unfold SdoServer.downloadInitiate SdoServer.abortStep
  simp only []
  split
  · rename_i hexp
    repeat' split
    all_goals first
      | exact Or.inl rfl
      | exact Or.inr ⟨rfl, hexp⟩
  · exact Or.inl rfl

/-- The download-segment handler leaves the dictionary untouched except in
the final commit branch, where the transfer resolves. -/
theorem downloadSegment_eds_cases (rt : List Nat → Int) (eds : Eds) (t : Transfer)
    (d : List Nat) :
    (SdoServer.downloadSegment rt eds t d).eds = eds ∨
    (SdoServer.downloadSegment rt eds t d).res = Completion.resolved none := by
  unfold SdoServer.downloadSegment SdoServer.abortStep
  simp only []
  repeat' split
  all_goals first
    | exact Or.inl rfl
    | exact Or.inr rfl

/-- C8: entry raw bytes are modified only at the commit point.  Every
abort path of the server download handlers (OBJECT_UNDEFINED,
BAD_SUB_INDEX, READ_ONLY, VALUE_HIGH, VALUE_LOW, TOGGLE_BIT) leaves the
dictionary unchanged; a change by the segment handler means the final
segment committed (the transfer resolved), and a change by the initiate
handler can only come from the expedited branch. -/
theorem C8_no_write_before_commit (rt : List Nat → Int) (eds : Eds) (t : Transfer)
    (d : List Nat) :
    (∀ code, (SdoServer.downloadInitiate rt eds t d).res = Completion.rejected code →
      (SdoServer.downloadInitiate rt eds t d).eds = eds) ∧
    (∀ code, (SdoServer.downloadSegment rt eds t d).res = Completion.rejected code →
      (SdoServer.downloadSegment rt eds t d).eds = eds) ∧
    ((SdoServer.downloadSegment rt eds t d).eds ≠ eds →
      (SdoServer.downloadSegment rt eds t d).res = Completion.resolved none) ∧
    ((SdoServer.downloadInitiate rt eds t d).eds ≠ eds → readU8 d 0 &&& 0x02 ≠ 0) := by
  refine ⟨?_, ?_, ?_, ?_⟩
  · intro code h
    rcases downloadInitiate_eds_cases rt eds t d with hc | hc
    · exact hc
    · rw [hc.1] at h
      cases h
  · intro code h
    rcases downloadSegment_eds_cases rt eds t d with hc | hc
    · exact hc
    · rw [hc] at h
      cases h
  · intro hne
    rcases downloadSegment_eds_cases rt eds t d with hc | hc
    · exact absurd hc hne
    · exact hc
  · intro hne
    rcases downloadInitiate_eds_cases rt eds t d with hc | hc
    · exact absurd hc hne
    · exact hc.2

/-- C8 witness: two concrete abort runs (missing object) leave the empty
dictionary unchanged. -/
theorem C8_witness :
    (SdoServer.downloadInitiate rawToIntLE [] ⟨0, 0, [], 0, 0, false, 0⟩
        [0x23, 0x00, 0x20, 0x00, 1, 2, 3, 4]).eds = [] ∧
    (SdoServer.downloadSegment rawToIntLE [] ⟨0x2000, 0, [], 0, 0, true, 0⟩
        [0x01, 1, 2, 3, 4, 5, 6, 7]).eds = [] :=
  ⟨(C8_no_write_before_commit rawToIntLE [] ⟨0, 0, [], 0, 0, false, 0⟩
      [0x23, 0x00, 0x20, 0x00, 1, 2, 3, 4]).1 SdoCode.OBJECT_UNDEFINED (by decide),
   (C8_no_write_before_commit rawToIntLE [] ⟨0x2000, 0, [], 0, 0, true, 0⟩
      [0x01, 1, 2, 3, 4, 5, 6, 7]).2.1 SdoCode.OBJECT_UNDEFINED (by decide)⟩

/-- C3 amended witness at the counterexample input. -/
theorem C3_amended_witness :
    SdoClient.uploadSegment ⟨0x2000, 0, [], 0, 0, true, 0x60B⟩
        [0x09, 0xAA, 0xBB, 0xCC, 0, 0, 0, 0] =
      Transfer.abortStep ⟨0x2000, 0, [], 0, 0, true, 0x60B⟩ SdoCode.BAD_LENGTH :=
  C3_amended ⟨0x2000, 0, [], 0, 0, true, 0x60B⟩ [0x09, 0xAA, 0xBB, 0xCC, 0, 0, 0, 0]
    (by decide) (by decide) (by decide) (by decide) (by decide)

/-! ## Queue trace lemmas -/

theorem pushedIds_cons (op : QOp) (ops : List QOp) :
    Queue.pushedIds (op :: ops) = Queue.pushedIds [op] ++ Queue.pushedIds ops := by
  cases op <;> simp [Queue.pushedIds]

theorem startedIds_append (e1 e2 : List QEvent) :
    Queue.startedIds (e1 ++ e2) = Queue.startedIds e1 ++ Queue.startedIds e2 := by
  induction e1 with
  | nil => rfl
  | cons e es ih => cases e <;> simp [Queue.startedIds, ih]

theorem altRun_append (p : Option Nat) (e1 e2 : List QEvent) :
    Queue.altRun p (e1 ++ e2) = (Queue.altRun p e1).bind fun q => Queue.altRun q e2 := by
  induction e1 generalizing p with
  | nil => cases p <;> rfl
  | cons e es ih =>
    cases e with
    | start x =>
      cases p with
      | none => simpa [Queue.altRun] using ih (some x)
      | some y => rfl
    | finish x =>
      cases p with
      | none => rfl
      | some y =>
        simp only [Queue.altRun, List.cons_append]
        split
        · exact ih none
        · rfl

/-- One queue operation preserves arrival order (the front of the waiting
list is the only transfer ever started) and keeps the event trace valid. -/
theorem step_spec (s : QueueState) (op : QOp) :
    s.queue ++ Queue.pushedIds [op] =
      Queue.startedIds (Queue.step s op).2 ++ (Queue.step s op).1.queue ∧
    Queue.altRun s.pending (Queue.step s op).2 = some (Queue.step s op).1.pending := by
  rcases s with ⟨q, p⟩
  cases op <;> cases p <;> cases q <;>
    constructor <;>
      simp [Queue.step, Queue.push, Queue.pop, Queue.complete, Queue.pushedIds,
        Queue.startedIds, Queue.altRun]

/-- Running any operation sequence from any state starts transfers exactly
in arrival order and produces a valid alternating trace. -/
theorem run_spec (ops : List QOp) (s : QueueState) :
    s.queue ++ Queue.pushedIds ops =
      Queue.startedIds (Queue.run s ops).2 ++ (Queue.run s ops).1.queue ∧
    Queue.altRun s.pending (Queue.run s ops).2 = some (Queue.run s ops).1.pending := by
  induction ops generalizing s with
  | nil =>
    exact ⟨by simp [Queue.run, Queue.pushedIds, Queue.startedIds],
      by simp [Queue.run, Queue.altRun]⟩
  | cons op ops ih =>
    obtain ⟨h1, h2⟩ := step_spec s op
    obtain ⟨ih1, ih2⟩ := ih (Queue.step s op).1
    constructor
    · calc s.queue ++ Queue.pushedIds (op :: ops)
          = (s.queue ++ Queue.pushedIds [op]) ++ Queue.pushedIds ops := by
            rw [pushedIds_cons, List.append_assoc]
      _ = (Queue.startedIds (Queue.step s op).2 ++ (Queue.step s op).1.queue) ++
            Queue.pushedIds ops := by rw [h1]
      _ = Queue.startedIds (Queue.step s op).2 ++
            ((Queue.step s op).1.queue ++ Queue.pushedIds ops) := by
            rw [List.append_assoc]
      _ = Queue.startedIds (Queue.step s op).2 ++
            (Queue.startedIds (Queue.run (Queue.step s op).1 ops).2 ++
              (Queue.run (Queue.step s op).1 ops).1.queue) := by rw [ih1]
      _ = Queue.startedIds (Queue.run s (op :: ops)).2 ++
            (Queue.run s (op :: ops)).1.queue := by
            simp [Queue.run, startedIds_append, List.append_assoc]
    · calc Queue.altRun s.pending (Queue.run s (op :: ops)).2
          = Queue.altRun s.pending
              ((Queue.step s op).2 ++ (Queue.run (Queue.step s op).1 ops).2) := by
            simp [Queue.run]
      _ = (Queue.altRun s.pending (Queue.step s op).2).bind
            (fun x => Queue.altRun x (Queue.run (Queue.step s op).1 ops).2) :=
            altRun_append _ _ _
      _ = Queue.altRun (Queue.step s op).1.pending
            (Queue.run (Queue.step s op).1 ops).2 := by rw [h2]; rfl
      _ = some (Queue.run s (op :: ops)).1.pending := by rw [ih2]; simp [Queue.run]

/-- C9: per-server FIFO and at-most-one-active for the transfer queue.
For every sequence of push/complete operations from the initial queue,
(i) the submission order equals the order in which transfers start,
followed by the transfers still waiting — so the started ids form a prefix
of the pushed ids; and (ii) the event trace is valid under altRun: a
transfer starts only when none is running (at most one active at a time)
and only the running transfer finishes, so a transfer submitted earlier is
finished before the next one starts. -/
theorem C9_queue_fifo (ops : List QOp) :
    Queue.pushedIds ops =
      Queue.startedIds (Queue.run Queue.init ops).2 ++ (Queue.run Queue.init ops).1.queue ∧
    Queue.startedIds (Queue.run Queue.init ops).2 <+: Queue.pushedIds ops ∧
    Queue.altRun none (Queue.run Queue.init ops).2 =
      some (Queue.run Queue.init ops).1.pending := by
  have h := run_spec ops Queue.init
  refine ⟨by simpa [Queue.init] using h.1, ⟨(Queue.run Queue.init ops).1.queue, ?_⟩,
    by simpa [Queue.init] using h.2⟩
  exact (by simpa [Queue.init] using h.1 : _ = _).symm

end Canopen
